import Mathlib

/-!
Shallow embedding of the MenZ-FuguMT translation server core:
`src/FuguMTTranslator/websocket_server.py`, `src/FuguMTTranslator/translator.py`
and the signal handling of `src/main.py`.

JSON objects are association lists over string keys.  External collaborators
— the Marian model (`model.generate` + `tokenizer.decode`), the wall clock,
uuid generation, and the asyncio scheduling of worker threads against the
awaiting coroutine — enter as parameters of an environment record `Env`.
Logging calls and the translator's internal statistics counters
(`self.stats`) are omitted: no observable behaviour modelled here reads them.
-/

namespace FuguMT

/-- A JSON-like value as carried in request and response messages.  The
modelled behaviour only needs strings and numbers; numeric millisecond
counts are modelled as integers. -/
inductive JVal where
  | str (s : String)
  | num (n : Int)
deriving DecidableEq, Repr

/-- Python `str()`/f-string coercion applied when a field value is
interpolated into a message (for example the language pair). -/
def JVal.asStr : JVal → String
  | .str s => s
  | .num n => toString n

/-- A parsed JSON object: association list mirroring a python dict
(keys unique by construction). -/
abbrev Msg := List (String × JVal)

/-- `d.get(key)`: value of the entry with that key, if present. -/
def getField : Msg → String → Option JVal
  | [], _ => none
  | p :: rest, k => if p.1 = k then some p.2 else getField rest k

/-- `d.get(key, default)`. -/
def getFieldD (m : Msg) (k : String) (d : JVal) : JVal :=
  (getField m k).getD d

/-- `d[key] = value`: replace in place when the key exists, append when
absent. -/
def setField : Msg → String → JVal → Msg
  | [], k, v => [(k, v)]
  | p :: rest, k, v => if p.1 = k then (k, v) :: rest else p :: setField rest k v

/-- The request dict built by `_handle_translation_request`
(websocket_server.py lines 184-193) and put on the worker queue. -/
structure Job where
  id : JVal
  client_id : String
  type : String
  text : JVal
  source_lang : JVal
  target_lang : JVal
  priority : JVal
  timestamp : Nat
deriving DecidableEq

/-- `self.response_queues : Dict[str, Queue]`: request id to response queue.
Each queue is the list of results put so far (`queue.Queue` preserves put
order; `get` takes the head). -/
abbrev SlotMap := List (JVal × List Msg)

/-- `self.response_queues.get(id)`. -/
def lookupSlot : SlotMap → JVal → Option (List Msg)
  | [], _ => none
  | p :: rest, id => if p.1 = id then some p.2 else lookupSlot rest id

/-- `self.response_queues[id] = q`. -/
def setSlot : SlotMap → JVal → List Msg → SlotMap
  | [], id, q => [(id, q)]
  | p :: rest, id, q => if p.1 = id then (id, q) :: rest else p :: setSlot rest id q

/-- `self.response_queues.pop(id, None)` (the `finally` cleanup of
`_handle_translation_request`, websocket_server.py line 216). -/
def eraseSlot : SlotMap → JVal → SlotMap
  | [], _ => []
  | p :: rest, id => if p.1 = id then eraseSlot rest id else p :: eraseSlot rest id

/-- The worker delivery step (websocket_server.py lines 272-275 and 287-295):
`response_queue = self.response_queues.get(id)`; `if response_queue:
response_queue.put(result)`.  A `queue.Queue` instance is always truthy, so
the guard tests exactly slot existence.  The boolean records whether a queue
existed — the spec's `fulfill -> bool` contract. -/
def fulfill (m : SlotMap) (id : JVal) (result : Msg) : Bool × SlotMap :=
  match lookupSlot m id with
  | none => (false, m)
  | some q => (true, setSlot m id (q ++ [result]))

/-- The mutable server state touched by the translation path:
`self.request_queue` (a FIFO `queue.Queue` of request dicts),
`self.response_queues`, and the two `server_stats` counters the path
mutates. -/
structure ServerState where
  request_queue : List Job
  response_queues : SlotMap
  total_requests : Nat
  total_errors : Nat
deriving DecidableEq

/-- The error reply `_client_loop` sends when `_process_message` raises
(websocket_server.py lines 136-140). -/
def clientErrorReply (e : String) : Msg :=
  [("error", .str e), ("status", .str "error")]

/-- Python `str.strip()` as used in the translator's emptiness check:
drop unicode whitespace from both ends of the character sequence. -/
def pyStrip (s : String) : List Char :=
  ((s.data.dropWhile Char.isWhitespace).reverse.dropWhile Char.isWhitespace).reverse

/-- The error result the worker builds when the processing of a job raises
(websocket_server.py lines 290-294). -/
def workerErrorResult (e : String) : Msg :=
  [("error", .str e), ("status", .str "error"), ("processing_time_ms", .num 0)]

/-- `FuguMTTranslator.translate` (translator.py lines 180-272).  `pairs` is
the key set of `self.models`; `gen` is the external model computation
(`tokenizer` + `model.generate` + `decode`); `ptimeMs` the externally
measured processing time.  The python code computes the language pair with
an f-string, checks membership, strips the text (raising `AttributeError`
inside the `try` when the text is not a string, `ValueError` when it strips
to empty), and catches every exception into an error-shaped dict.  The
available-pairs listing inside the error message is abbreviated to a
comma-separated rendering of the pair list. -/
def translate (pairs : List String) (gen : String → String) (ptimeMs : Int)
    (text source_lang target_lang : JVal) : Msg :=
  let lang_pair := source_lang.asStr ++ "-" ++ target_lang.asStr
  let errorBody : String → Msg := fun e =>
    [("error", .str e), ("source_text", text), ("source_lang", source_lang),
     ("target_lang", target_lang), ("processing_time_ms", .num ptimeMs),
     ("status", .str "error")]
  if lang_pair ∈ pairs then
    match text with
    | .str s =>
      if pyStrip s = [] then errorBody "翻訳対象テキストが空です"
      else
        [("translated_text", .str (gen s)), ("source_text", text),
         ("source_lang", source_lang), ("target_lang", target_lang),
         ("processing_time_ms", .num ptimeMs), ("status", .str "success")]
    | _ => errorBody "AttributeError"
  else
    errorBody ("サポートされていない言語ペア: " ++ lang_pair ++ ". 利用可能: "
      ++ String.intercalate ", " pairs)

/-- The external collaborators and scheduling choices of one request:
supported model pairs, the model computation, the measured clock values,
the generated uuid, and whether the worker's result lands in the slot
before `response_queue.get(timeout=...)` gives up (`workerCompletes`). -/
structure Env where
  pairs : List String
  gen : String → String
  ptimeMs : Int
  genId : String
  clientId : String
  now : Nat
  timeout_seconds : Nat
  serverTime : String
  statsBody : Msg
  healthBody : Msg
  workerCompletes : Bool

/-- The worker's invocation of the translator on a dequeued job
(websocket_server.py lines 266-270). -/
def runProcessor (env : Env) (req : Job) : Msg :=
  translate env.pairs env.gen env.ptimeMs req.text req.source_lang req.target_lang

/-- First phase of `_handle_translation_request` (websocket_server.py lines
163-197): resolve the request id, check the required `text` field (raising
`ValueError` when missing, before any queue or slot is touched), read the
defaulted fields, create the response slot, enqueue the job and bump the
request counter. -/
def handleTranslationEnqueue (env : Env) (data : Msg) (st : ServerState) :
    Except String (JVal × ServerState) :=
  let request_id := getFieldD data "request_id" (.str env.genId)
  match getField data "text" with
  | none => .error "必須フィールドが不足: text"
  | some text =>
    let source_lang := getFieldD data "source_lang" (.str "en")
    let target_lang := getFieldD data "target_lang" (.str "ja")
    let priority := getFieldD data "priority" (.str "normal")
    let request : Job :=
      { id := request_id, client_id := env.clientId, type := "translation",
        text := text, source_lang := source_lang, target_lang := target_lang,
        priority := priority, timestamp := env.now }
    .ok (request_id,
      { st with
        response_queues := setSlot st.response_queues request_id [],
        request_queue := st.request_queue ++ [request],
        total_requests := st.total_requests + 1 })

/-- Second phase of `_handle_translation_request` (websocket_server.py lines
199-216): `response_queue.get(timeout=self.config.timeout_seconds)` either
returns the head result — to which the handler assigns `request_id` — or
raises `Empty`, producing the timeout reply.  The `finally` block pops the
slot in both cases. -/
def awaitResponse (timeout_seconds : Nat) (m : SlotMap) (request_id : JVal) :
    Msg × SlotMap :=
  let reply :=
    match (lookupSlot m request_id).bind List.head? with
    | some response => setField response "request_id" request_id
    | none =>
        [("request_id", request_id),
         ("error", .str ("リクエストタイムアウト (" ++ toString timeout_seconds ++ "秒)")),
         ("status", .str "timeout")]
  (reply, eraseSlot m request_id)

/-- One iteration of `_worker_thread`'s loop body after a job has been
dequeued (websocket_server.py lines 265-295).  `process` stands for the
work done inside the `try` for a translation job; `.error` is an exception
reaching the `except Exception` handler, which bumps the error counter and
delivers the error-shaped result through the same slot when it still
exists. -/
def workerStep (process : Job → Except String Msg) (req : Job)
    (st : ServerState) : ServerState :=
  if req.type = "translation" then
    match process req with
    | .ok result =>
        { st with response_queues := (fulfill st.response_queues req.id result).2 }
    | .error e =>
        let stErr := { st with total_errors := st.total_errors + 1 }
        { stErr with
          response_queues := (fulfill stErr.response_queues req.id (workerErrorResult e)).2 }
  else st

/-- The worker loop over the jobs it dequeues while `self.running` stays
true: neither branch of the `try` breaks the `while`. -/
def workerRun (process : Job → Except String Msg) :
    List Job → ServerState → ServerState
  | [], st => st
  | req :: rest, st => workerRun process rest (workerStep process req st)

/-- `self.request_queue.put(request)`. -/
def queuePut (q : List Job) (j : Job) : List Job := q ++ [j]

/-- `self.request_queue.get(...)`: the oldest enqueued job, if any. -/
def queueGet : List Job → Option (Job × List Job)
  | [] => none
  | j :: rest => some (j, rest)

/-- The order in which available workers, repeatedly calling `get`, drain
the queue. -/
def drainQueue : List Job → List Job
  | [] => []
  | j :: rest => j :: drainQueue rest

/-- Rewrite any job's priority tag. -/
def setJobPriority (f : JVal → JVal) (j : Job) : Job :=
  { j with priority := f j.priority }

/-- One complete translation request served sequentially: validate and
enqueue; if the scheduling lets the worker finish within the wait
(`env.workerCompletes`), one worker iteration runs on the queue head; the
awaiting coroutine then reads its slot (or times out) and the slot is
popped.  A validation `ValueError` propagates to `_client_loop`, which
replies with `clientErrorReply` and leaves the state untouched. -/
def serveOneTranslation (env : Env) (data : Msg) (st : ServerState) :
    Msg × ServerState :=
  match handleTranslationEnqueue env data st with
  | .error e => (clientErrorReply e, st)
  | .ok (request_id, st1) =>
    let st2 :=
      if env.workerCompletes then
        match st1.request_queue with
        | [] => st1
        | req :: rest =>
          workerStep (fun r => Except.ok (runProcessor env r)) req
            { st1 with request_queue := rest }
      else st1
    let ar := awaitResponse env.timeout_seconds st2.response_queues request_id
    (ar.1, { st2 with response_queues := ar.2 })

/-- One inbound websocket frame: either text that `json.loads` rejects
(with the decoder's message) or a parsed object. -/
inductive Frame where
  | malformed (err : String)
  | wellFormed (data : Msg)
deriving DecidableEq

/-- `data.get('type', 'translation')` as compared against the four literal
type strings (websocket_server.py line 150); a non-string value compares
unequal to every literal, which `asStr` preserves. -/
def requestTypeOf (data : Msg) : String :=
  match getField data "type" with
  | none => "translation"
  | some v => v.asStr

/-- The `pong` reply (websocket_server.py lines 220-225). -/
def pongReply (env : Env) : Msg :=
  [("type", .str "pong"), ("timestamp", .num (Int.ofNat env.now)),
   ("server_time", .str env.serverTime), ("status", .str "ok")]

/-- `_process_message` under `_client_loop`'s try/except: every raised
`ValueError` — malformed JSON, missing required field, unsupported type —
becomes an error reply on the same connection; the stats and health replies
carry externally supplied bodies (they read only the external translator). -/
def clientStep (env : Env) (st : ServerState) : Frame → Msg × ServerState
  | .malformed err => (clientErrorReply ("無効なJSONフォーマット: " ++ err), st)
  | .wellFormed data =>
    let rt := requestTypeOf data
    if rt = "translation" then serveOneTranslation env data st
    else if rt = "ping" then (pongReply env, st)
    else if rt = "stats" then (env.statsBody, st)
    else if rt = "health" then (env.healthBody, st)
    else (clientErrorReply ("サポートされていないリクエストタイプ: " ++ rt), st)

/-- `_client_loop` (websocket_server.py lines 129-140): `async for message
in websocket` — each frame is processed, exceptions are answered with an
error reply, and the loop moves to the next frame either way. -/
def clientLoop (env : Env) (st : ServerState) : List Frame → List Msg × ServerState
  | [] => ([], st)
  | f :: rest =>
    let step := clientStep env st f
    let restRun := clientLoop env step.2 rest
    (step.1 :: restRun.1, restRun.2)

/-- The state read and written by `FuguMTServer`'s signal handler
(main.py lines 167-209): the per-process signal counter, the running flag,
whether `self.shutdown_event` has been created, whether an asyncio event
loop is running (so `call_soon_threadsafe` can be reached), whether the
translator exists, and whether the shutdown event has been set.  Setting
`shutdown_event_set` is the net effect of scheduling `_shutdown` on the
loop. -/
structure MainState where
  signal_count : Nat
  running : Bool
  shutdown_event_present : Bool
  loop_running : Bool
  translator_present : Bool
  shutdown_event_set : Bool
deriving DecidableEq

/-- What one invocation of the signal handler does besides mutating the
counter and flags. -/
inductive SignalAction where
  /-- schedule `_shutdown` via `call_soon_threadsafe`: the graceful path. -/
  | scheduleShutdown
  /-- `os._exit(1)` because no event loop is running. -/
  | exitNoEventLoop
  /-- `shutdown_event` is `None`: the first-signal branch does nothing more. -/
  | noWake
  /-- 2nd signal: `translator.cleanup()` when the translator exists, `gc`,
  then `os._exit(0)`.  The flag records whether cleanup was invoked. -/
  | forceCleanupAndExit (cleanedUp : Bool)
  /-- 3rd and later signals: `os._exit(1)` with no cleanup. -/
  | hardExit
deriving DecidableEq

/-- `signal_handler` (main.py lines 169-206): the counter is incremented
first, then the branch is chosen on its new value. -/
def signalHandler (st : MainState) : SignalAction × MainState :=
  let st1 := { st with signal_count := st.signal_count + 1 }
  if st1.signal_count = 1 then
    let st2 := { st1 with running := false }
    if st2.shutdown_event_present then
      if st2.loop_running then
        (.scheduleShutdown, { st2 with shutdown_event_set := true })
      else (.exitNoEventLoop, st2)
    else (.noWake, st2)
  else if st1.signal_count = 2 then
    (.forceCleanupAndExit st1.translator_present, st1)
  else
    (.hardExit, st1)

/-- The connection and worker bookkeeping `stop_server` manipulates
(websocket_server.py lines 299-325). -/
structure WSRuntime where
  running : Bool
  connected_clients : List String
deriving DecidableEq

/-- `worker.join(timeout=2.0)`: the bounded per-worker wait of
`stop_server` (websocket_server.py line 319), in seconds. -/
def workerJoinTimeoutSeconds : Nat := 2

/-- `stop_server`: flip `self.running` false and close every connected
client; returns the new runtime and the list of connections that were
closed. -/
def stopServer (w : WSRuntime) : WSRuntime × List String :=
  ({ running := false, connected_clients := [] }, w.connected_clients)

/-! ### Helper lemmas on the map and message operations -/

theorem lookupSlot_setSlot (m : SlotMap) (id : JVal) (q : List Msg) :
    lookupSlot (setSlot m id q) id = some q := by
  induction m with
  | nil => simp [setSlot, lookupSlot]
  | cons p rest ih =>
    by_cases h : p.1 = id
    · simp [setSlot, lookupSlot, h]
    · simp [setSlot, lookupSlot, h, ih]

theorem lookupSlot_eraseSlot (m : SlotMap) (id : JVal) :
    lookupSlot (eraseSlot m id) id = none := by
  induction m with
  | nil => simp [eraseSlot, lookupSlot]
  | cons p rest ih =>
    by_cases h : p.1 = id
    · simp [eraseSlot, h, ih]
    · simp [eraseSlot, lookupSlot, h, ih]

theorem getField_setField_self (m : Msg) (k : String) (v : JVal) :
    getField (setField m k v) k = some v := by
  induction m with
  | nil => simp [setField, getField]
  | cons p rest ih =>
    by_cases h : p.1 = k
    · simp [setField, getField, h]
    · simp [setField, getField, h, ih]

theorem getField_setField_ne (m : Msg) (k k2 : String) (v : JVal)
    (h : k2 ≠ k) : getField (setField m k v) k2 = getField m k2 := by
  induction m with
  | nil => simp [setField, getField, Ne.symm h]
  | cons p rest ih =>
    simp only [setField, getField]
    by_cases hp : p.1 = k
    · rw [if_pos hp]
      simp only [getField]
      rw [if_neg (Ne.symm h), hp, if_neg (Ne.symm h)]
    · rw [if_neg hp]
      simp only [getField]
      by_cases hp2 : p.1 = k2
      · rw [if_pos hp2, if_pos hp2]
      · rw [if_neg hp2, if_neg hp2, ih]

theorem drainQueue_eq (l : List Job) : drainQueue l = l := by
  induction l with
  | nil => rfl
  | cons j rest ih => simp [drainQueue, ih]

theorem drainQueue_queueGet (l : List Job) :
    drainQueue l = match queueGet l with
      | none => []
      | some jr => jr.1 :: drainQueue jr.2 := by
  cases l <;> simp [drainQueue, queueGet]

theorem clientLoop_length (env : Env) (st : ServerState) (fs : List Frame) :
    (clientLoop env st fs).1.length = fs.length := by
  induction fs generalizing st with
  | nil => rfl
  | cons f rest ih => simp [clientLoop, ih]

/-! ### Shared sample inputs for the witnesses -/

/-- The empty server state at startup. -/
def stEmpty : ServerState :=
  { request_queue := [], response_queues := [], total_requests := 0,
    total_errors := 0 }

/-- A sample environment: the spec's stub Processor returning the fixed
output, with the worker completing before the timeout. -/
def envSample : Env :=
  { pairs := ["en-ja"], gen := fun _ => "こんにちは", ptimeMs := 5,
    genId := "gen-1", clientId := "c1", now := 0, timeout_seconds := 30,
    serverTime := "t", statsBody := [], healthBody := [],
    workerCompletes := true }

/-- The spec's sample translation request. -/
def dataSample : Msg :=
  [("type", .str "translation"), ("text", .str "Hello"),
   ("source_lang", .str "en"), ("target_lang", .str "ja")]

/-! ### The claims -/

/-- C1: for every translation-type request containing a `text` field, when
the Processor returns a success result with a translated output, the reply
sent to the requesting connection has status `success`, carries that
translated text, and carries a request id equal to the caller-supplied one,
or the generated one when the caller supplied none. -/
theorem translation_success_reply (env : Env) (data : Msg) (st : ServerState)
    (txt : String)
    (hwc : env.workerCompletes = true)
    (hq : st.request_queue = [])
    (htext : getField data "text" = some (.str txt))
    (htrim : ¬(pyStrip txt = []))
    (hpair : (getFieldD data "source_lang" (.str "en")).asStr ++ "-" ++
             (getFieldD data "target_lang" (.str "ja")).asStr ∈ env.pairs) :
    getField (serveOneTranslation env data st).1 "status" = some (.str "success")
    ∧ getField (serveOneTranslation env data st).1 "translated_text"
        = some (.str (env.gen txt))
    ∧ getField (serveOneTranslation env data st).1 "request_id"
        = some (getFieldD data "request_id" (.str env.genId)) := by
  simp only [serveOneTranslation, handleTranslationEnqueue, htext, hwc, hq,
    List.nil_append, if_true, workerStep, runProcessor, translate]
  rw [if_pos hpair]
  simp only [if_neg htrim]
  simp [fulfill, lookupSlot_setSlot, setSlot, awaitResponse, lookupSlot,
    getField_setField_self, getField_setField_ne, getField]

theorem translation_success_reply_witness :
    envSample.workerCompletes = true
    ∧ stEmpty.request_queue = []
    ∧ getField dataSample "text" = some (.str "Hello")
    ∧ ¬(pyStrip "Hello" = [])
    ∧ (getFieldD dataSample "source_lang" (.str "en")).asStr ++ "-" ++
        (getFieldD dataSample "target_lang" (.str "ja")).asStr ∈ envSample.pairs
    ∧ (getField (serveOneTranslation envSample dataSample stEmpty).1 "status"
          = some (.str "success")
      ∧ getField (serveOneTranslation envSample dataSample stEmpty).1 "translated_text"
          = some (.str (envSample.gen "Hello"))
      ∧ getField (serveOneTranslation envSample dataSample stEmpty).1 "request_id"
          = some (getFieldD dataSample "request_id" (.str envSample.genId))) :=
  ⟨by decide, by decide, by decide, by decide, by decide,
   translation_success_reply envSample dataSample stEmpty "Hello" (by decide)
     (by decide) (by decide) (by decide) (by decide)⟩

/-- C2: the await of `_handle_translation_request` removes the job's
response slot from the slot map on return — in the value-delivered case
and in the timeout case alike, since the pop is in a `finally` — so a slot
cannot be fulfilled again after await returns, and a second read finds no
value (it resolves as a timeout). -/
theorem await_removes_slot (t : Nat) (m : SlotMap) (id : JVal) :
    lookupSlot (awaitResponse t m id).2 id = none
    ∧ (∀ r : Msg, fulfill (awaitResponse t m id).2 id r
        = (false, (awaitResponse t m id).2))
    ∧ (∀ t2 : Nat, getField (awaitResponse t2 (awaitResponse t m id).2 id).1 "status"
        = some (.str "timeout")) := by
  refine ⟨?_, ?_, ?_⟩
  · simp [awaitResponse, lookupSlot_eraseSlot]
  · intro r
    simp [fulfill, awaitResponse, lookupSlot_eraseSlot]
  · intro t2
    simp [awaitResponse, lookupSlot_eraseSlot, getField]

/-- C3: calling fulfill for a job identifier whose response slot no longer
exists is a no-op signalling failure (returns false, leaves the map
untouched, raises nothing); in particular a worker result arriving after
the caller's await removed the slot is silently dropped. -/
theorem fulfill_missing_slot_noop (m : SlotMap) (id : JVal) (r : Msg)
    (h : lookupSlot m id = none) :
    fulfill m id r = (false, m)
    ∧ (∀ (t : Nat) (m0 : SlotMap) (r2 : Msg),
        fulfill (awaitResponse t m0 id).2 id r2
          = (false, (awaitResponse t m0 id).2)) := by
  constructor
  · simp [fulfill, h]
  · intro t m0 r2
    simp [fulfill, awaitResponse, lookupSlot_eraseSlot]

theorem fulfill_missing_slot_noop_witness :
    lookupSlot ([] : SlotMap) (.str "job-1") = none
    ∧ (fulfill ([] : SlotMap) (.str "job-1") [] = (false, ([] : SlotMap))
      ∧ ∀ (t : Nat) (m0 : SlotMap) (r2 : Msg),
          fulfill (awaitResponse t m0 (.str "job-1")).2 (.str "job-1") r2
            = (false, (awaitResponse t m0 (.str "job-1")).2)) :=
  ⟨by decide, fulfill_missing_slot_noop [] (.str "job-1") [] (by decide)⟩

/-- C4: a translation-type request without the required `text` field is
answered with an error-status envelope, the server state is unchanged (no
job enqueued, no slot created), and the client loop goes on processing the
remaining frames of the same connection. -/
theorem missing_text_rejected (env : Env) (st : ServerState) (data : Msg)
    (rest : List Frame)
    (htype : requestTypeOf data = "translation")
    (h : getField data "text" = none) :
    clientStep env st (.wellFormed data)
      = (clientErrorReply "必須フィールドが不足: text", st)
    ∧ getField (clientStep env st (.wellFormed data)).1 "status"
        = some (.str "error")
    ∧ clientLoop env st (.wellFormed data :: rest)
        = (clientErrorReply "必須フィールドが不足: text" :: (clientLoop env st rest).1,
           (clientLoop env st rest).2) := by
  have hstep : clientStep env st (.wellFormed data)
      = (clientErrorReply "必須フィールドが不足: text", st) := by
    simp [clientStep, htype, serveOneTranslation, handleTranslationEnqueue, h]
  refine ⟨hstep, ?_, ?_⟩
  · rw [hstep]
    simp [clientErrorReply, getField]
  · simp [clientLoop, hstep]

theorem missing_text_rejected_witness :
    requestTypeOf [("source_lang", JVal.str "en"), ("target_lang", JVal.str "ja")]
      = "translation"
    ∧ getField [("source_lang", JVal.str "en"), ("target_lang", JVal.str "ja")] "text"
      = none
    ∧ (clientStep envSample stEmpty
        (.wellFormed [("source_lang", JVal.str "en"), ("target_lang", JVal.str "ja")])
        = (clientErrorReply "必須フィールドが不足: text", stEmpty)
      ∧ getField (clientStep envSample stEmpty
          (.wellFormed [("source_lang", JVal.str "en"), ("target_lang", JVal.str "ja")])).1
          "status" = some (.str "error")
      ∧ clientLoop envSample stEmpty
          (.wellFormed [("source_lang", JVal.str "en"), ("target_lang", JVal.str "ja")] :: [])
          = (clientErrorReply "必須フィールドが不足: text"
              :: (clientLoop envSample stEmpty []).1,
             (clientLoop envSample stEmpty []).2)) :=
  ⟨by decide, by decide,
   missing_text_rejected envSample stEmpty
     [("source_lang", JVal.str "en"), ("target_lang", JVal.str "ja")] []
     (by decide) (by decide)⟩

/-- C5: the request queue is FIFO — draining it by repeated `get` yields
the jobs in enqueue order, the oldest first — and rewriting the priority
tags of every queued job leaves the dequeue order of job identifiers
unchanged. -/
theorem queue_fifo_priority_ignored (q : List Job) (j1 j2 : Job)
    (f : JVal → JVal) :
    drainQueue (queuePut (queuePut q j1) j2) = drainQueue q ++ [j1, j2]
    ∧ queueGet (queuePut ([] : List Job) j1) = some (j1, [])
    ∧ (drainQueue (q.map (setJobPriority f))).map Job.id
        = (drainQueue q).map Job.id := by
  refine ⟨?_, rfl, ?_⟩
  · simp [drainQueue_eq, queuePut]
  · simp [drainQueue_eq, setJobPriority]

/-- C6: when the processing of a dequeued translation job raises, the
worker catches it, increments the error counter, delivers the error-shaped
result (status `error`) through the job's slot when the slot still exists
and touches nothing when it does not, and its loop proceeds to the next
job — the exception never terminates the worker. -/
theorem worker_fault_isolated (process : Job → Except String Msg) (req : Job)
    (rest : List Job) (st : ServerState) (e : String)
    (htype : req.type = "translation")
    (herr : process req = .error e) :
    (workerStep process req st).total_errors = st.total_errors + 1
    ∧ (∀ q, lookupSlot st.response_queues req.id = some q →
        lookupSlot (workerStep process req st).response_queues req.id
          = some (q ++ [workerErrorResult e]))
    ∧ (lookupSlot st.response_queues req.id = none →
        (workerStep process req st).response_queues = st.response_queues)
    ∧ workerRun process (req :: rest) st
        = workerRun process rest (workerStep process req st)
    ∧ getField (workerErrorResult e) "status" = some (.str "error") := by
  refine ⟨?_, ?_, ?_, rfl, by simp [workerErrorResult, getField]⟩
  · simp only [workerStep, htype, if_true, herr, fulfill]
  · intro q hq
    simp [workerStep, htype, herr, fulfill, hq, lookupSlot_setSlot]
  · intro hnone
    simp [workerStep, htype, herr, fulfill, hnone]

theorem worker_fault_isolated_witness :
    (⟨.str "j1", "c1", "translation", .str "Hello", .str "en", .str "ja",
        .str "normal", 0⟩ : Job).type = "translation"
    ∧ (fun _ : Job => (Except.error "boom" : Except String Msg))
        ⟨.str "j1", "c1", "translation", .str "Hello", .str "en", .str "ja",
         .str "normal", 0⟩ = .error "boom"
    ∧ ((workerStep (fun _ => Except.error "boom")
          ⟨.str "j1", "c1", "translation", .str "Hello", .str "en", .str "ja",
           .str "normal", 0⟩ stEmpty).total_errors = stEmpty.total_errors + 1
      ∧ (∀ q, lookupSlot stEmpty.response_queues (JVal.str "j1") = some q →
          lookupSlot (workerStep (fun _ => Except.error "boom")
            ⟨.str "j1", "c1", "translation", .str "Hello", .str "en", .str "ja",
             .str "normal", 0⟩ stEmpty).response_queues (JVal.str "j1")
            = some (q ++ [workerErrorResult "boom"]))
      ∧ (lookupSlot stEmpty.response_queues (JVal.str "j1") = none →
          (workerStep (fun _ => Except.error "boom")
            ⟨.str "j1", "c1", "translation", .str "Hello", .str "en", .str "ja",
             .str "normal", 0⟩ stEmpty).response_queues = stEmpty.response_queues)
      ∧ workerRun (fun _ => Except.error "boom")
          (⟨.str "j1", "c1", "translation", .str "Hello", .str "en", .str "ja",
            .str "normal", 0⟩ :: []) stEmpty
          = workerRun (fun _ => Except.error "boom") []
              (workerStep (fun _ => Except.error "boom")
                ⟨.str "j1", "c1", "translation", .str "Hello", .str "en", .str "ja",
                 .str "normal", 0⟩ stEmpty)
      ∧ getField (workerErrorResult "boom") "status" = some (.str "error")) :=
  ⟨by decide, rfl,
   worker_fault_isolated (fun _ => Except.error "boom")
     ⟨.str "j1", "c1", "translation", .str "Hello", .str "en", .str "ja",
      .str "normal", 0⟩ [] stEmpty "boom" (by decide) rfl⟩

/-- C7: termination signals escalate by count within one process lifetime —
the 1st flips running false and schedules the graceful shutdown (setting
the shutdown event, whose stop path closes every connection and waits a
bounded 2 seconds per worker), the 2nd immediately invokes the translator
cleanup and exits, and the 3rd and every further signal exits at once with
no cleanup. -/
theorem signal_escalation (st : MainState) (w : WSRuntime)
    (h0 : st.signal_count = 0)
    (hev : st.shutdown_event_present = true)
    (hloop : st.loop_running = true)
    (htr : st.translator_present = true) :
    ((signalHandler st).1 = .scheduleShutdown
      ∧ (signalHandler st).2.running = false
      ∧ (signalHandler st).2.shutdown_event_set = true)
    ∧ (signalHandler (signalHandler st).2).1 = .forceCleanupAndExit true
    ∧ (signalHandler (signalHandler (signalHandler st).2).2).1 = .hardExit
    ∧ (∀ s2 : MainState, 2 ≤ s2.signal_count → (signalHandler s2).1 = .hardExit)
    ∧ ((stopServer w).1.running = false
      ∧ (stopServer w).1.connected_clients = []
      ∧ (stopServer w).2 = w.connected_clients
      ∧ workerJoinTimeoutSeconds = 2) := by
  refine ⟨?_, ?_, ?_, ?_, by simp [stopServer, workerJoinTimeoutSeconds]⟩
  · simp [signalHandler, h0, hev, hloop]
  · simp [signalHandler, h0, hev, hloop, htr]
  · simp [signalHandler, h0, hev, hloop]
  · intro s2 h2
    have h1 : ¬(s2.signal_count + 1 = 1) := by omega
    have hb : ¬(s2.signal_count + 1 = 2) := by omega
    simp [signalHandler, h1, hb]

theorem signal_escalation_witness :
    (⟨0, true, true, true, true, false⟩ : MainState).signal_count = 0
    ∧ (⟨0, true, true, true, true, false⟩ : MainState).shutdown_event_present = true
    ∧ (⟨0, true, true, true, true, false⟩ : MainState).loop_running = true
    ∧ (⟨0, true, true, true, true, false⟩ : MainState).translator_present = true
    ∧ (((signalHandler ⟨0, true, true, true, true, false⟩).1 = .scheduleShutdown
        ∧ (signalHandler ⟨0, true, true, true, true, false⟩).2.running = false
        ∧ (signalHandler ⟨0, true, true, true, true, false⟩).2.shutdown_event_set = true)
      ∧ (signalHandler (signalHandler ⟨0, true, true, true, true, false⟩).2).1
          = .forceCleanupAndExit true
      ∧ (signalHandler (signalHandler
            (signalHandler ⟨0, true, true, true, true, false⟩).2).2).1 = .hardExit
      ∧ (∀ s2 : MainState, 2 ≤ s2.signal_count → (signalHandler s2).1 = .hardExit)
      ∧ ((stopServer ⟨true, ["a", "b"]⟩).1.running = false
        ∧ (stopServer ⟨true, ["a", "b"]⟩).1.connected_clients = []
        ∧ (stopServer ⟨true, ["a", "b"]⟩).2 = ["a", "b"]
        ∧ workerJoinTimeoutSeconds = 2)) :=
  ⟨by decide, by decide, by decide, by decide,
   signal_escalation ⟨0, true, true, true, true, false⟩ ⟨true, ["a", "b"]⟩
     (by decide) (by decide) (by decide) (by decide)⟩

/-- The correlated reply of a processed translation always conforms to the
fulfilled-response envelope: request id present, exactly one of
`translated_text` or `error`, status `success` or `error`, and
`processing_time_ms` present. -/
theorem translate_then_correlate_envelope (pairs : List String)
    (gen : String → String) (ptimeMs : Int) (text sl tl rid : JVal) :
    (getField (setField (translate pairs gen ptimeMs text sl tl) "request_id" rid)
        "request_id").isSome = true
    ∧ ((getField (setField (translate pairs gen ptimeMs text sl tl) "request_id" rid)
          "translated_text").isSome
        = !(getField (setField (translate pairs gen ptimeMs text sl tl) "request_id" rid)
          "error").isSome)
    ∧ (getField (setField (translate pairs gen ptimeMs text sl tl) "request_id" rid)
          "status" = some (.str "success")
        ∨ getField (setField (translate pairs gen ptimeMs text sl tl) "request_id" rid)
          "status" = some (.str "error"))
    ∧ (getField (setField (translate pairs gen ptimeMs text sl tl) "request_id" rid)
        "processing_time_ms").isSome = true := by
  simp only [translate]
  by_cases hp : (JVal.asStr sl ++ "-" ++ JVal.asStr tl) ∈ pairs
  · rw [if_pos hp]
    cases text with
    | str s =>
      by_cases he : pyStrip s = []
      · simp [setField, getField, he]
      · simp [setField, getField, he]
    | num n => simp [setField, getField]
  · rw [if_neg hp]
    simp [setField, getField]

/-- C8 (amended): every reply for a validated translation request carries
`request_id`, exactly one of `translated_text` or `error`, and a status in
success/error/timeout; `processing_time_ms` is present on every
non-timeout reply but absent from the timeout reply. -/
theorem translation_reply_envelope (env : Env) (data : Msg) (st : ServerState)
    (hq : st.request_queue = [])
    (htext : (getField data "text").isSome = true) :
    (getField (serveOneTranslation env data st).1 "request_id").isSome = true
    ∧ ((getField (serveOneTranslation env data st).1 "translated_text").isSome
        = !(getField (serveOneTranslation env data st).1 "error").isSome)
    ∧ (getField (serveOneTranslation env data st).1 "status" = some (.str "success")
        ∨ getField (serveOneTranslation env data st).1 "status" = some (.str "error")
        ∨ getField (serveOneTranslation env data st).1 "status" = some (.str "timeout"))
    ∧ (getField (serveOneTranslation env data st).1 "status" ≠ some (.str "timeout")
        → (getField (serveOneTranslation env data st).1 "processing_time_ms").isSome = true)
    ∧ (getField (serveOneTranslation env data st).1 "status" = some (.str "timeout")
        → getField (serveOneTranslation env data st).1 "processing_time_ms" = none) := by
  obtain ⟨text, ht⟩ := Option.isSome_iff_exists.mp htext
  by_cases hwc : env.workerCompletes = true
  · have hred : (serveOneTranslation env data st).1
        = setField (translate env.pairs env.gen env.ptimeMs text
            (getFieldD data "source_lang" (.str "en"))
            (getFieldD data "target_lang" (.str "ja")))
            "request_id" (getFieldD data "request_id" (.str env.genId)) := by
      simp [serveOneTranslation, handleTranslationEnqueue, ht, hwc, hq,
        workerStep, runProcessor, fulfill, lookupSlot_setSlot, awaitResponse]
    rw [hred]
    obtain ⟨e1, e2, e3, e4⟩ := translate_then_correlate_envelope env.pairs env.gen
      env.ptimeMs text
      (getFieldD data "source_lang" (.str "en"))
      (getFieldD data "target_lang" (.str "ja"))
      (getFieldD data "request_id" (.str env.genId))
    refine ⟨e1, e2, ?_, fun _ => e4, ?_⟩
    · rcases e3 with h | h
      · exact Or.inl h
      · exact Or.inr (Or.inl h)
    · intro hts
      rcases e3 with h | h <;> rw [hts] at h <;> simp at h
  · rw [Bool.not_eq_true] at hwc
    have hred : (serveOneTranslation env data st).1
        = [("request_id", getFieldD data "request_id" (.str env.genId)),
           ("error", .str ("リクエストタイムアウト (" ++ toString env.timeout_seconds ++ "秒)")),
           ("status", .str "timeout")] := by
      simp [serveOneTranslation, handleTranslationEnqueue, ht, hwc,
        awaitResponse, lookupSlot_setSlot]
    rw [hred]
    refine ⟨by simp [getField], by simp [getField],
      Or.inr (Or.inr (by simp [getField])), ?_, fun _ => by simp [getField]⟩
    intro hne
    exact absurd (by simp [getField]) hne

theorem translation_reply_envelope_witness :
    stEmpty.request_queue = []
    ∧ (getField dataSample "text").isSome = true
    ∧ ((getField (serveOneTranslation envSample dataSample stEmpty).1 "request_id").isSome = true
      ∧ ((getField (serveOneTranslation envSample dataSample stEmpty).1 "translated_text").isSome
          = !(getField (serveOneTranslation envSample dataSample stEmpty).1 "error").isSome)
      ∧ (getField (serveOneTranslation envSample dataSample stEmpty).1 "status" = some (.str "success")
          ∨ getField (serveOneTranslation envSample dataSample stEmpty).1 "status" = some (.str "error")
          ∨ getField (serveOneTranslation envSample dataSample stEmpty).1 "status" = some (.str "timeout"))
      ∧ (getField (serveOneTranslation envSample dataSample stEmpty).1 "status" ≠ some (.str "timeout")
          → (getField (serveOneTranslation envSample dataSample stEmpty).1 "processing_time_ms").isSome = true)
      ∧ (getField (serveOneTranslation envSample dataSample stEmpty).1 "status" = some (.str "timeout")
          → getField (serveOneTranslation envSample dataSample stEmpty).1 "processing_time_ms" = none)) :=
  ⟨by decide, by decide,
   translation_reply_envelope envSample dataSample stEmpty (by decide) (by decide)⟩

/-- C8 counterexample: the timeout reply of a translation request — worker
not done within the configured wait — carries status `timeout` but no
`processing_time_ms` field, against the claimed envelope. -/
theorem timeout_reply_lacks_processing_time :
    getField (serveOneTranslation
      { pairs := ["en-ja"], gen := fun _ => "こんにちは", ptimeMs := 5,
        genId := "gen-1", clientId := "c1", now := 0, timeout_seconds := 30,
        serverTime := "t", statsBody := [], healthBody := [],
        workerCompletes := false }
      [("type", .str "translation"), ("text", .str "Hello"),
       ("source_lang", .str "en"), ("target_lang", .str "ja")]
      { request_queue := [], response_queues := [], total_requests := 0,
        total_errors := 0 }).1 "status" = some (.str "timeout")
    ∧ getField (serveOneTranslation
      { pairs := ["en-ja"], gen := fun _ => "こんにちは", ptimeMs := 5,
        genId := "gen-1", clientId := "c1", now := 0, timeout_seconds := 30,
        serverTime := "t", statsBody := [], healthBody := [],
        workerCompletes := false }
      [("type", .str "translation"), ("text", .str "Hello"),
       ("source_lang", .str "en"), ("target_lang", .str "ja")]
      { request_queue := [], response_queues := [], total_requests := 0,
        total_errors := 0 }).1 "processing_time_ms" = none := by
  decide

/-- C9: an inbound frame that fails to parse is answered with an error
envelope on the same connection, the state is untouched, and the message
loop continues with the remaining frames, producing one reply per frame. -/
theorem malformed_frame_handled (env : Env) (st : ServerState) (e : String)
    (rest : List Frame) :
    clientStep env st (.malformed e)
      = (clientErrorReply ("無効なJSONフォーマット: " ++ e), st)
    ∧ getField (clientStep env st (.malformed e)).1 "status" = some (.str "error")
    ∧ clientLoop env st (.malformed e :: rest)
        = (clientErrorReply ("無効なJSONフォーマット: " ++ e) :: (clientLoop env st rest).1,
           (clientLoop env st rest).2)
    ∧ (clientLoop env st (.malformed e :: rest)).1.length = rest.length + 1 := by
  refine ⟨rfl, ?_, ?_, ?_⟩
  · simp [clientStep, clientErrorReply, getField]
  · simp [clientLoop, clientStep]
  · simp [clientLoop_length]

/-- C10: a well-formed message without a `type` field is dispatched as a
translation request — the type defaults to `translation` — while a message
whose `type` value matches none of the four recognized types is answered
with the unsupported-type error reply. -/
theorem untyped_message_dispatch (env : Env) (st : ServerState) (data bad : Msg)
    (v : JVal)
    (h1 : getField data "type" = none)
    (h2 : getField bad "type" = some v)
    (h3 : ¬(JVal.asStr v ∈ (["translation", "ping", "stats", "health"] : List String))) :
    clientStep env st (.wellFormed data) = serveOneTranslation env data st
    ∧ getField (clientStep env st (.wellFormed bad)).1 "status" = some (.str "error")
    ∧ getField (clientStep env st (.wellFormed bad)).1 "error"
        = some (.str ("サポートされていないリクエストタイプ: " ++ JVal.asStr v)) := by
  simp only [List.mem_cons, List.mem_singleton, not_or] at h3
  obtain ⟨n1, n2, n3, n4⟩ := h3
  have hrt : requestTypeOf bad = JVal.asStr v := by simp [requestTypeOf, h2]
  refine ⟨?_, ?_, ?_⟩
  · simp [clientStep, requestTypeOf, h1]
  · simp [clientStep, hrt, n1, n2, n3, n4, clientErrorReply, getField]
  · simp [clientStep, hrt, n1, n2, n3, n4, clientErrorReply, getField]

theorem untyped_message_dispatch_witness :
    getField [("text", JVal.str "hi")] "type" = none
    ∧ getField [("type", JVal.str "bogus")] "type" = some (JVal.str "bogus")
    ∧ ¬(JVal.asStr (JVal.str "bogus")
        ∈ (["translation", "ping", "stats", "health"] : List String))
    ∧ (clientStep envSample stEmpty (.wellFormed [("text", JVal.str "hi")])
        = serveOneTranslation envSample [("text", JVal.str "hi")] stEmpty
      ∧ getField (clientStep envSample stEmpty
          (.wellFormed [("type", JVal.str "bogus")])).1 "status" = some (.str "error")
      ∧ getField (clientStep envSample stEmpty
          (.wellFormed [("type", JVal.str "bogus")])).1 "error"
          = some (.str ("サポートされていないリクエストタイプ: "
              ++ JVal.asStr (JVal.str "bogus")))) :=
  ⟨by decide, by decide, by decide,
   untyped_message_dispatch envSample stEmpty [("text", JVal.str "hi")]
     [("type", JVal.str "bogus")] (JVal.str "bogus") (by decide) (by decide)
     (by decide)⟩

end FuguMT
